import Mathlib

/-!
Shallow embedding of the weaverbird session-state machine and its local
configuration resolution (aws-toolkit-vscode, weaverbird feature slice).

The embedding models:
* config resolution from the environment-supplied JSON blob
  (function `getConfig` in the source): the JSON parse outcome is an
  explicit `Option ParsedConfig` input (with `none` standing for an
  unparseable blob), while the version check and field-by-field fallback
  merge are translated directly;
* the session states (`RefinementState`, `RefinementIterationState`,
  `CodeGenState`, `MockCodeGenState`, `CodeGenIterationState`) and their
  `interact` methods.  Remote invocations are inputs: each `interact`
  receives the responses the remote side would produce, a transport
  failure being an `Except.error`.  Messages fired through the
  `onAddToHistory` event emitter are collected in an explicit `history`
  list; the cancellation token is a predicate on the poll index.
-/

namespace Weaverbird

/-- A `{ filePath, fileContent }` pair (`FileMetadata` in the client types). -/
structure FileMetadata where
  filePath : String
  fileContent : String
deriving DecidableEq

/-- A chat interaction: an `ai` message string or an `ai` codegen summary
holding the list of touched paths (field `content` of the source object). -/
inductive Interaction where
  | message (origin : String) (content : String)
  | codegen (origin : String) (paths : List String)
deriving DecidableEq

/-- A transport failure raised by `invoke`. -/
structure TransportError where
  message : String
deriving DecidableEq

/-! ## Configuration resolution (`getConfig`) -/

/-- `lambdaArns.approach` of `LocalResolvedConfig`. -/
structure ApproachArns where
  generate : String
  iterate : String
deriving DecidableEq

/-- `lambdaArns.codegen` of `LocalResolvedConfig`. -/
structure CodegenArns where
  generate : String
  iterate : String
  getResults : String
deriving DecidableEq

/-- `lambdaArns` of `LocalResolvedConfig`. -/
structure LambdaArns where
  approach : ApproachArns
  codegen : CodegenArns
deriving DecidableEq

/-- The resolved local configuration returned by `getConfig`. -/
structure LocalResolvedConfig where
  endpoint : String
  region : String
  lambdaArns : LambdaArns
deriving DecidableEq

/-- The hard-coded `gammaConfig` the source uses as `defaultConfig`. -/
def gammaConfig : LocalResolvedConfig where
  endpoint := "https://8id2rzphzj.execute-api.us-west-2.amazonaws.com/gamma"
  region := "us-west-2"
  lambdaArns :=
    { approach :=
        { generate :=
            "arn:aws:lambda:us-west-2:789621683470:function:WeaverbirdService-Service-GenerateApproachLambda47-VIjB8vZYS3Iu:live"
          iterate :=
            "arn:aws:lambda:us-west-2:789621683470:function:WeaverbirdService-Service-IterateApproachLambda18D-48KTZ8YLkK70:live" }
      codegen :=
        { generate :=
            "arn:aws:lambda:us-west-2:789621683470:function:WeaverbirdService-Service-GenerateCodeLambdaCDE418-nXvafUVY7rmw:live"
          iterate :=
            "arn:aws:lambda:us-west-2:789621683470:function:WeaverbirdService-Service-IterateCodeLambdaA908EBD-Asyx9VdIH3k2:live"
          getResults :=
            "arn:aws:lambda:us-west-2:789621683470:function:WeaverbirdService-Service-GetCodeGenerationLambdaB-3W5Wr1TtVHcr:live" } }

/-- The fields of the parsed environment blob that `getConfig` reads.
`version` is the `Number.parseInt(parsedConfig.version)` result (`none`
standing for `NaN`); the five arn fields are the optional-chained
`parsedConfig.lambdaArns?.approach?.generate` etc. -/
structure ParsedConfig where
  version : Option Int
  endpoint : Option String
  region : Option String
  approachGenerate : Option String
  approachIterate : Option String
  codegenGenerate : Option String
  codegenIterate : Option String
  codegenGetResults : Option String
deriving DecidableEq

/-- The required config schema version (`appConfigFormatVersion`). -/
def appConfigFormatVersion : Int := 2

/-- `getConfig`: resolve the configuration from the parse outcome of the
environment blob.  `none` stands for an unparseable blob (`JSON.parse`
threw, so the `catch` returns the default config).  A missing or
mismatched version throws internally and is likewise caught, yielding the
default config; otherwise each field falls back to `gammaConfig`
individually.  The function is total: no error reaches the caller. -/
def getConfig (blob : Option ParsedConfig) : LocalResolvedConfig :=
  match blob with
  | none => gammaConfig
  | some p =>
    match p.version with
    | none => gammaConfig
    | some v =>
      if v ≠ appConfigFormatVersion then gammaConfig
      else
        { endpoint := p.endpoint.getD gammaConfig.endpoint
          region := p.region.getD gammaConfig.region
          lambdaArns :=
            { approach :=
                { generate := p.approachGenerate.getD gammaConfig.lambdaArns.approach.generate
                  iterate := p.approachIterate.getD gammaConfig.lambdaArns.approach.iterate }
              codegen :=
                { generate := p.codegenGenerate.getD gammaConfig.lambdaArns.codegen.generate
                  iterate := p.codegenIterate.getD gammaConfig.lambdaArns.codegen.iterate
                  getResults := p.codegenGetResults.getD gammaConfig.lambdaArns.codegen.getResults } } }

/-- Parse outcome of the blob `{"version":2,"endpoint":"https://x"}`. -/
def blobVersion2Endpoint : ParsedConfig :=
  ⟨some 2, some "https://x", none, none, none, none, none, none⟩

/-- Parse outcome of the blob `{"version":1}`. -/
def blobVersion1 : ParsedConfig :=
  ⟨some 1, none, none, none, none, none, none, none⟩

/-! ## Session-state data model -/

/-- The part of `SessionStateConfig` available before a conversation id is
known (`Omit<SessionStateConfig, 'conversationId'>`).  The `client`,
`llmConfig` and `backendConfig` handles are opaque to the state machine
and omitted; `workspaceRoot` is kept as the representative payload. -/
structure SessionStateConfigBase where
  workspaceRoot : String
deriving DecidableEq

/-- `SessionStateConfig`: the base config plus the conversation id. -/
structure SessionStateConfig extends SessionStateConfigBase where
  conversationId : String
deriving DecidableEq

/-- A `SessionStateAction`: task text, the current file snapshot and the
optional free-text user message (`msg`).  The `onAddToHistory` emitter and
the virtual filesystem handle are modelled by the outputs instead. -/
structure SessionStateAction where
  task : String
  files : List FileMetadata
  msg : Option String
deriving DecidableEq

/-- The next state returned by an `interact` call, as a tagged variant
carrying the data the corresponding class instance would hold. -/
inductive NextState where
  | refinementIteration (config : SessionStateConfig) (approach : String)
  | codeGenIteration (config : SessionStateConfig) (approach : String)
      (newFileContents : List FileMetadata)
deriving DecidableEq

/-- The observable outcome of an `interact` call: the returned
`nextState`, the returned `interactions` list, and `history`, the
concatenation of everything fired through `onAddToHistory` during the
call. -/
structure StateOutput where
  nextState : NextState
  interactions : List Interaction
  history : List Interaction
deriving DecidableEq

/-- `GenerateApproachOutput`: the approach-generation response. -/
structure GenerateApproachOutput where
  approach : Option String
  conversationId : String
deriving DecidableEq

/-- `IterateApproachOutput`: the approach-iteration response. -/
structure IterateApproachOutput where
  approach : Option String
deriving DecidableEq

/-- `GenerateCodeOutput`: the code-generation response. -/
structure GenerateCodeOutput where
  generationId : String
deriving DecidableEq

/-- `GetCodeGenerationResultOutput`: a polling response.  `result` stands
for the optional chain `result?.newFileContents`. -/
structure CodegenResult where
  codeGenerationStatus : String
  result : Option (List FileMetadata)
deriving DecidableEq

/-- The fallback approach text used when a response carries no approach. -/
def approachFallback : String :=
  "There has been a problem generating an approach. Please type 'CLEAR' and start over."

/-- `pat` occurs as a contiguous run inside `s`. -/
def occursWithin (pat : List Char) : List Char → Bool
  | [] => pat.isEmpty
  | c :: rest => pat.isPrefixOf (c :: rest) || occursWithin pat rest

/-- `s` contains `pat` as a substring (`s.indexOf(pat) !== -1`). -/
def containsSubstr (s pat : String) : Bool :=
  occursWithin pat.data s.data

/-! ## Change materializer (`createChanges`) -/

/-- `createChanges`: the two interactions returned after registering every
generated file in the virtual filesystem — a fixed confirmation message,
then a codegen summary listing every registered path.  The registration
itself mutates the external virtual filesystem and has no further
observable effect on the state machine. -/
def createChanges (newFileContents : List FileMetadata) : List Interaction :=
  [ Interaction.message "ai" "Changes to files done. Please review:",
    Interaction.codegen "ai" (newFileContents.map FileMetadata.filePath) ]

/-! ## Polling engine (`CodeGenBase.generateCode`) -/

/-- The attempt ceiling (`private pollCount = 60`). -/
def pollCount : Nat := 60

/-- The diagnostic fired when the attempt budget is exhausted while the
generation is still in progress (or the token was cancelled). -/
def timeoutMessage : Interaction :=
  Interaction.message "ai" "Code generation did not finish withing the expected time :("

/-- The diagnostic fired on `codeGenerationStatus = 'failed'`. -/
def failedMessage : Interaction :=
  Interaction.message "ai" "Code generation failed\n"

/-- The diagnostic fired on an unrecognized `codeGenerationStatus`. -/
def unknownStatusMessage (status : String) : Interaction :=
  Interaction.message "ai" ("Unknown status: " ++ status ++ "\n")

/-- The `'Code generation started\n'` message fired before polling. -/
def codeGenStartedMessage : Interaction :=
  Interaction.message "ai" "Code generation started\n"

/-- Result of a completed `generateCode` run: the returned file list, the
history messages fired during the run, and the number of status fetches
performed. -/
structure GenCodeResult where
  newFiles : List FileMetadata
  history : List Interaction
  attempts : Nat
deriving DecidableEq

/-- The body of `generateCode`'s polling loop.  `fetch i` is the response
of the `i`-th `invoke` of the get-results lambda (a transport failure
being `.error`), `cancelled i` the token state checked before attempt `i`,
and `fuel` the remaining attempt budget.  A transport failure aborts the
loop, carrying the history fired before the throw. -/
def generateCodeAux (fetch : Nat → Except TransportError CodegenResult)
    (cancelled : Nat → Bool) :
    Nat → Nat → Except (TransportError × List Interaction) GenCodeResult
  | _, 0 => .ok ⟨[], [timeoutMessage], 0⟩
  | i, fuel + 1 =>
    if cancelled i then .ok ⟨[], [timeoutMessage], 0⟩
    else
      match fetch i with
      | .error e => .error (e, [])
      | .ok r =>
        if r.codeGenerationStatus = "ready" then
          let newFiles := r.result.getD []
          .ok ⟨newFiles, createChanges newFiles, 1⟩
        else if r.codeGenerationStatus = "in-progress" then
          match generateCodeAux fetch cancelled (i + 1) fuel with
          | .error (e, h) => .error (e, h)
          | .ok rest => .ok ⟨rest.newFiles, rest.history, rest.attempts + 1⟩
        else if r.codeGenerationStatus = "failed" then
          .ok ⟨[], [failedMessage], 1⟩
        else
          .ok ⟨[], [unknownStatusMessage r.codeGenerationStatus], 1⟩

/-- `CodeGenBase.generateCode`: run the polling loop from attempt 0 with
the full `pollCount` budget. -/
def generateCode (fetch : Nat → Except TransportError CodegenResult)
    (cancelled : Nat → Bool) : Except (TransportError × List Interaction) GenCodeResult :=
  generateCodeAux fetch cancelled 0 pollCount

/-! ## `CodeGenState.interact` -/

/-- `CodeGenState.interact`.  `generateResp` is the response of the
initiating `invoke` of the code-generation lambda (not wrapped in any
try/catch in the source, so its failure propagates); `fetch`/`cancelled`
drive the polling loop, whose failure is caught by the `.catch` and
replaced by an empty file list. -/
def CodeGenState.interact (config : SessionStateConfig) (approach : String)
    (_action : SessionStateAction)
    (generateResp : Except TransportError GenerateCodeOutput)
    (fetch : Nat → Except TransportError CodegenResult)
    (cancelled : Nat → Bool) : Except TransportError StateOutput :=
  match generateResp with
  | .error e => .error e
  | .ok _resp =>
    match generateCode fetch cancelled with
    | .error (_, h) =>
      .ok { nextState := NextState.codeGenIteration config approach []
            interactions := []
            history := codeGenStartedMessage :: h }
    | .ok r =>
      .ok { nextState := NextState.codeGenIteration config approach r.newFiles
            interactions := []
            history := codeGenStartedMessage :: r.history }

/-! ## `MockCodeGenState.interact` -/

/-- Strip the first occurrence of `pat` from `s`
(JS `s.replace(pat, '')` with a string pattern replaces only the first
occurrence). -/
def removeFirstOccurrence (s pat : String) : String :=
  match s.splitOn pat with
  | [] => s
  | [only] => only
  | first :: rest => first ++ String.intercalate pat rest

/-- `MockCodeGenState.interact`.  `statResult` is the outcome of
`fs.stat` on `<workspaceRoot>/mock-data` (an exception or the truthiness
of the stat), `collectResult` the outcome of `collectFiles` on it; both
sit inside the `try`, so either failure leaves the file list empty.  The
function is total: no error escapes. -/
def MockCodeGenState.interact (config : SessionStateConfig) (approach : String)
    (_action : SessionStateAction)
    (statResult : Except String Bool)
    (collectResult : Except String (List FileMetadata)) : StateOutput :=
  let newFileContents : List FileMetadata :=
    match statResult with
    | .error _ => []
    | .ok exists_ =>
      if exists_ then
        match collectResult with
        | .error _ => []
        | .ok files =>
          files.map fun f =>
            { filePath := removeFirstOccurrence f.filePath "mock-data/"
              fileContent := f.fileContent }
      else []
  { nextState := NextState.codeGenIteration config approach newFileContents
    interactions := createChanges newFileContents
    history := [] }

/-! ## `CodeGenIterationState` -/

/-- The merged snapshot `CodeGenIterationState.interact` builds before
re-invoking code generation:
`[...this.newFileContents].concat(...action.files.filter(originalFile =>
!this.newFileContents.some(newFile => newFile.filePath ===
originalFile.filePath)))`. -/
def mergedFileContents (newFileContents actionFiles : List FileMetadata) :
    List FileMetadata :=
  newFileContents ++
    actionFiles.filter fun originalFile =>
      !(newFileContents.any fun newFile => newFile.filePath == originalFile.filePath)

/-- `CodeGenIterationState.interact`.  The payload's
`originalFileContents` is the merged snapshot; `generate` is the
code-generation lambda as a function of that payload (unguarded, like the
initiating call of `CodeGenState`), and the polling loop's failure is
again caught by the `.catch`.  The next state is the same
`CodeGenIterationState` object with its file set replaced. -/
def CodeGenIterationState.interact (config : SessionStateConfig) (approach : String)
    (newFileContents : List FileMetadata) (action : SessionStateAction)
    (generate : List FileMetadata → Except TransportError GenerateCodeOutput)
    (fetch : Nat → Except TransportError CodegenResult)
    (cancelled : Nat → Bool) : Except TransportError StateOutput :=
  let fileContents := mergedFileContents newFileContents action.files
  match generate fileContents with
  | .error e => .error e
  | .ok _resp =>
    let doneMessage := Interaction.message "ai" "Changes to files done"
    match generateCode fetch cancelled with
    | .error (_, h) =>
      .ok { nextState := NextState.codeGenIteration config approach []
            interactions := [doneMessage]
            history := codeGenStartedMessage :: h }
    | .ok r =>
      .ok { nextState := NextState.codeGenIteration config approach r.newFiles
            interactions := [doneMessage]
            history := codeGenStartedMessage :: r.history }

/-! ## Refinement states -/

/-- `RefinementState.interact`.  `generateResp` is the response of the
approach-generation `invoke` (unguarded, so a transport failure
propagates).  On success the returned conversation id is stored in a new
config and the state moves to `RefinementIterationState`. -/
def RefinementState.interact (config : SessionStateConfigBase) (_approach : String)
    (_action : SessionStateAction)
    (generateResp : Except TransportError GenerateApproachOutput) :
    Except TransportError StateOutput :=
  match generateResp with
  | .error e => .error e
  | .ok r =>
    let approach := r.approach.getD approachFallback
    .ok { nextState :=
            NextState.refinementIteration { config with conversationId := r.conversationId }
              approach
          interactions := [Interaction.message "ai" (approach ++ "\n")]
          history := [] }

/-- The remote responses a `RefinementIterationState.interact` call may
consume, one per possible branch. -/
structure RefinementIterationEnv where
  generateResp : Except TransportError GenerateCodeOutput
  fetch : Nat → Except TransportError CodegenResult
  cancelled : Nat → Bool
  mockStat : Except String Bool
  mockFiles : Except String (List FileMetadata)
  iterateResp : Except TransportError IterateApproachOutput

/-- The approach-iteration branch of `RefinementIterationState.interact`:
invoke approach-iteration, replace the approach (falling back on a
missing one) and loop into a new `RefinementIterationState`. -/
def refinementIterate (config : SessionStateConfig)
    (iterateResp : Except TransportError IterateApproachOutput) :
    Except TransportError StateOutput :=
  match iterateResp with
  | .error e => .error e
  | .ok r =>
    let approach := r.approach.getD approachFallback
    .ok { nextState := NextState.refinementIteration config approach
          interactions := [Interaction.message "ai" (approach ++ "\n")]
          history := [] }

/-- `RefinementIterationState.interact`: a message containing the
`'WRITE CODE'` sentinel delegates to a fresh `CodeGenState`, else one
containing `'MOCK CODE'` delegates to a fresh `MockCodeGenState`, else the
approach-iteration branch runs. -/
def RefinementIterationState.interact (config : SessionStateConfig) (approach : String)
    (action : SessionStateAction) (env : RefinementIterationEnv) :
    Except TransportError StateOutput :=
  if (action.msg.map fun m => containsSubstr m "WRITE CODE").getD false then
    CodeGenState.interact config approach action env.generateResp env.fetch env.cancelled
  else if (action.msg.map fun m => containsSubstr m "MOCK CODE").getD false then
    .ok (MockCodeGenState.interact config approach action env.mockStat env.mockFiles)
  else
    refinementIterate config env.iterateResp

/-! ## Sample inputs used to instantiate the theorems below -/

/-- A sample session config. -/
def sampleConfig : SessionStateConfig :=
  { workspaceRoot := "/w", conversationId := "conv-1" }

/-- A sample action with no free-text message. -/
def sampleAction : SessionStateAction :=
  { task := "add a button", files := [], msg := none }

/-- A sample action whose message holds the `WRITE CODE` sentinel. -/
def writeCodeAction : SessionStateAction :=
  { task := "add a button", files := [], msg := some "please WRITE CODE now" }

/-- A sample action whose message is the lowercase `write code`. -/
def lowercaseAction : SessionStateAction :=
  { task := "add a button", files := [], msg := some "write code" }

/-- A sample action whose message holds both sentinels. -/
def bothSentinelsAction : SessionStateAction :=
  { task := "add a button", files := [], msg := some "WRITE CODE and MOCK CODE" }

/-- A polling response still in progress. -/
def inProgressResult : CodegenResult := ⟨"in-progress", none⟩

/-- A polling response that is ready with the single file `a.txt`. -/
def readyResult : CodegenResult := ⟨"ready", some [⟨"a.txt", "1"⟩]⟩

/-- A failed polling response. -/
def failedResult : CodegenResult := ⟨"failed", none⟩

/-- A sample transport error. -/
def sampleError : TransportError := ⟨"network failure"⟩

/-- A sample environment for `RefinementIterationState.interact`. -/
def sampleEnv : RefinementIterationEnv :=
  { generateResp := .ok ⟨"gen-1"⟩
    fetch := fun _ => .ok inProgressResult
    cancelled := fun _ => false
    mockStat := .error "ENOENT"
    mockFiles := .ok []
    iterateResp := .ok ⟨some "an approach"⟩ }

/-- A sample generated file list with pairwise-distinct paths. -/
def sampleGenerated : List FileMetadata := [⟨"a", "1"⟩, ⟨"b", "2"⟩]

/-- A sample original file list with pairwise-distinct paths, one of which
is superseded by `sampleGenerated`. -/
def sampleOriginals : List FileMetadata := [⟨"b", "0"⟩, ⟨"c", "3"⟩]

end Weaverbird

namespace Weaverbird

/-! ## Theorems -/

/-- C5: config resolution.  The blob `{"version":2,"endpoint":"https://x"}`
resolves to the default map with only the endpoint overridden (every
lambda ARN stays at its built-in default); the blob `{"version":1}` and an
unparseable blob both resolve to the full default map.  `getConfig` is a
total function, so no error reaches its caller in any case. -/
theorem getConfig_resolution :
    getConfig (some blobVersion2Endpoint) = { gammaConfig with endpoint := "https://x" } ∧
    getConfig (some blobVersion1) = gammaConfig ∧
    getConfig none = gammaConfig := by
  refine ⟨rfl, ?_, rfl⟩
  decide

/-- C9: on a successful approach-generation call, `RefinementState.interact`
returns a `RefinementIteration` next state carrying the response's
approach text and a new config holding the response's conversation id,
and exactly one AI message whose content is that approach text followed
by a newline; a response with no approach uses the fixed fallback string
in both places (the `Option.getD approachFallback`). -/
theorem refinementState_interact_success :
    (∀ (config : SessionStateConfigBase) (approach0 : String) (action : SessionStateAction)
        (r : GenerateApproachOutput),
      RefinementState.interact config approach0 action (.ok r) =
        .ok { nextState :=
                NextState.refinementIteration
                  { config with conversationId := r.conversationId }
                  (r.approach.getD approachFallback)
              interactions :=
                [Interaction.message "ai" (r.approach.getD approachFallback ++ "\n")]
              history := [] }) ∧
    (∀ (config : SessionStateConfigBase) (approach0 : String) (action : SessionStateAction)
        (cid : String),
      RefinementState.interact config approach0 action (.ok ⟨none, cid⟩) =
        .ok { nextState :=
                NextState.refinementIteration { config with conversationId := cid }
                  approachFallback
              interactions := [Interaction.message "ai" (approachFallback ++ "\n")]
              history := [] }) := by
  exact ⟨fun _ _ _ _ => rfl, fun _ _ _ _ => rfl⟩

/-- C8: if `fs.stat` on the mock-data directory fails (or reports a falsy
stat), or `collectFiles` on it fails, `MockCodeGenState.interact` still
returns (it is a total function, mirroring the `try`/`catch`), and its
next state is a `CodeGenIteration` holding an empty file set. -/
theorem mockCodeGen_interact_failure
    (config : SessionStateConfig) (approach : String) (action : SessionStateAction)
    (statResult : Except String Bool) (collectResult : Except String (List FileMetadata))
    (h : (∃ e, statResult = .error e) ∨ statResult = .ok false ∨
      ∃ e, collectResult = .error e) :
    MockCodeGenState.interact config approach action statResult collectResult =
      { nextState := NextState.codeGenIteration config approach []
        interactions := createChanges []
        history := [] } := by
  cases statResult with
  | error e => rfl
  | ok b =>
    cases b with
    | false => rfl
    | true =>
      rcases h with ⟨e, he⟩ | he | ⟨e, he⟩
      · exact absurd he (by simp)
      · exact absurd he (by simp)
      · rw [he]; rfl

/-- Witness for C8 at a missing mock-data directory. -/
theorem mockCodeGen_interact_failure_witness :
    MockCodeGenState.interact sampleConfig "an approach" sampleAction
        (.error "ENOENT") (.ok []) =
      { nextState := NextState.codeGenIteration sampleConfig "an approach" []
        interactions := createChanges []
        history := [] } :=
  mockCodeGen_interact_failure sampleConfig "an approach" sampleAction
    (.error "ENOENT") (.ok []) (Or.inl ⟨"ENOENT", rfl⟩)

/-- A transport failure at the very first status fetch aborts the polling
loop before any history message is fired. -/
theorem generateCode_first_fetch_error
    (fetch : Nat → Except TransportError CodegenResult) (cancelled : Nat → Bool)
    (e : TransportError) (he : fetch 0 = .error e) (hc : cancelled 0 = false) :
    generateCode fetch cancelled = .error (e, []) := by
  show generateCodeAux fetch cancelled 0 (59 + 1) = .error (e, [])
  unfold generateCodeAux
  rw [hc, he]
  rfl

/-- Counterexample to C3: at a concrete input whose initiating
code-generation call throws, `CodeGenState.interact` evaluates to that
very transport error — the exception propagates out of `interact`
uncaught, and no `CodeGenIteration` next state is returned. -/
theorem codeGen_initiating_throw_propagates :
    CodeGenState.interact sampleConfig "an approach" sampleAction (.error sampleError)
        (fun _ => .ok inProgressResult) (fun _ => false) =
      .error sampleError := rfl

/-- C3 (amended): a transport exception thrown by the initiating
code-generation call propagates out of `CodeGenState.interact` uncaught;
what `interact` does catch (via the `.catch` around `generateCode`) is a
transport exception thrown during result polling, which is treated as an
empty file set, a `CodeGenIteration` next state still being returned. -/
theorem codeGen_transport_failure_handling :
    (∀ (config : SessionStateConfig) (approach : String) (action : SessionStateAction)
        (e : TransportError) (fetch : Nat → Except TransportError CodegenResult)
        (cancelled : Nat → Bool),
      CodeGenState.interact config approach action (.error e) fetch cancelled = .error e) ∧
    (∀ (config : SessionStateConfig) (approach : String) (action : SessionStateAction)
        (resp : GenerateCodeOutput) (fetch : Nat → Except TransportError CodegenResult)
        (cancelled : Nat → Bool) (e : TransportError),
      fetch 0 = .error e → cancelled 0 = false →
      CodeGenState.interact config approach action (.ok resp) fetch cancelled =
        .ok { nextState := NextState.codeGenIteration config approach []
              interactions := []
              history := [codeGenStartedMessage] }) := by
  constructor
  · intro config approach action e fetch cancelled
    rfl
  · intro config approach action resp fetch cancelled e he hc
    unfold CodeGenState.interact
    rw [generateCode_first_fetch_error fetch cancelled e he hc]

/-- Witness for C3 (amended): a polling-time transport failure at a
concrete input is caught and yields an empty-file `CodeGenIteration`. -/
theorem codeGen_transport_failure_handling_witness :
    CodeGenState.interact sampleConfig "an approach" sampleAction (.ok ⟨"gen-1"⟩)
        (fun _ => .error sampleError) (fun _ => false) =
      .ok { nextState := NextState.codeGenIteration sampleConfig "an approach" []
            interactions := []
            history := [codeGenStartedMessage] } :=
  codeGen_transport_failure_handling.2 sampleConfig "an approach" sampleAction ⟨"gen-1"⟩
    (fun _ => .error sampleError) (fun _ => false) sampleError rfl rfl

/-- C4: sentinel detection in `RefinementIterationState.interact` is
substring-based and case-sensitive: any action whose message contains the
exact substring `WRITE CODE` delegates to a freshly constructed
`CodeGenState`'s `interact`, while the lowercase message `write code`
takes the approach-iteration branch instead. -/
theorem refinementIteration_writeCode_sentinel :
    (∀ (config : SessionStateConfig) (approach : String) (action : SessionStateAction)
        (env : RefinementIterationEnv) (m : String),
      action.msg = some m → containsSubstr m "WRITE CODE" = true →
      RefinementIterationState.interact config approach action env =
        CodeGenState.interact config approach action env.generateResp env.fetch
          env.cancelled) ∧
    (∀ (config : SessionStateConfig) (approach : String) (action : SessionStateAction)
        (env : RefinementIterationEnv),
      action.msg = some "write code" →
      RefinementIterationState.interact config approach action env =
        refinementIterate config env.iterateResp) := by
  constructor
  · intro config approach action env m hm hc
    unfold RefinementIterationState.interact
    rw [hm]
    simp [hc]
  · intro config approach action env hm
    unfold RefinementIterationState.interact
    rw [hm]
    simp only [Option.map_some', Option.getD_some]
    rw [if_neg (by decide), if_neg (by decide)]

/-- Witness for C4: the message `please WRITE CODE now` delegates to
`CodeGenState.interact`, the lowercase `write code` iterates the
approach. -/
theorem refinementIteration_writeCode_sentinel_witness :
    RefinementIterationState.interact sampleConfig "an approach" writeCodeAction sampleEnv =
      CodeGenState.interact sampleConfig "an approach" writeCodeAction
        sampleEnv.generateResp sampleEnv.fetch sampleEnv.cancelled ∧
    RefinementIterationState.interact sampleConfig "an approach" lowercaseAction sampleEnv =
      refinementIterate sampleConfig sampleEnv.iterateResp :=
  ⟨refinementIteration_writeCode_sentinel.1 sampleConfig "an approach" writeCodeAction
      sampleEnv "please WRITE CODE now" rfl (by decide),
    refinementIteration_writeCode_sentinel.2 sampleConfig "an approach" lowercaseAction
      sampleEnv rfl⟩

/-- C10: when a message contains both the `WRITE CODE` and the `MOCK CODE`
sentinels, `RefinementIterationState.interact` delegates to the real
`CodeGenState.interact`, never to `MockCodeGenState`: the `WRITE CODE`
check runs first. -/
theorem refinementIteration_sentinel_precedence
    (config : SessionStateConfig) (approach : String) (action : SessionStateAction)
    (env : RefinementIterationEnv) (m : String)
    (hm : action.msg = some m)
    (hw : containsSubstr m "WRITE CODE" = true)
    (hk : containsSubstr m "MOCK CODE" = true) :
    RefinementIterationState.interact config approach action env =
      CodeGenState.interact config approach action env.generateResp env.fetch
        env.cancelled := by
  unfold RefinementIterationState.interact
  rw [hm]
  simp [hw]

/-- Witness for C10 at a message holding both sentinels. -/
theorem refinementIteration_sentinel_precedence_witness :
    RefinementIterationState.interact sampleConfig "an approach" bothSentinelsAction
        sampleEnv =
      CodeGenState.interact sampleConfig "an approach" bothSentinelsAction
        sampleEnv.generateResp sampleEnv.fetch sampleEnv.cancelled :=
  refinementIteration_sentinel_precedence sampleConfig "an approach" bothSentinelsAction
    sampleEnv "WRITE CODE and MOCK CODE" rfl (by decide) (by decide)

/-- If every status fetch succeeds with `in-progress` and the token never
fires, the polling loop consumes its whole budget, one fetch per unit of
fuel, and ends with the single timeout diagnostic and no files. -/
theorem generateCodeAux_all_inProgress
    (fetch : Nat → Except TransportError CodegenResult) (cancelled : Nat → Bool)
    (hc : ∀ i, cancelled i = false)
    (hf : ∀ i, ∃ r, fetch i = .ok r ∧ r.codeGenerationStatus = "in-progress") :
    ∀ (fuel i : Nat),
      generateCodeAux fetch cancelled i fuel = .ok ⟨[], [timeoutMessage], fuel⟩ := by
  intro fuel
  induction fuel with
  | zero => intro i; rfl
  | succ n ih =>
    intro i
    obtain ⟨r, hr, hs⟩ := hf i
    unfold generateCodeAux
    rw [hc i, if_neg (by simp), hr]
    simp only
    rw [hs, if_neg (by decide), if_pos rfl, ih (i + 1)]

/-- C2: when every poll attempt reports `in-progress` (and the token never
fires), the polling engine performs exactly its ceiling of 60 status
fetches and no more, emits exactly one timeout diagnostic, and
`CodeGenState.interact` still returns (no exception) a `CodeGenIteration`
next state holding an empty file set. -/
theorem codeGen_poll_timeout
    (config : SessionStateConfig) (approach : String) (action : SessionStateAction)
    (resp : GenerateCodeOutput)
    (fetch : Nat → Except TransportError CodegenResult) (cancelled : Nat → Bool)
    (hc : ∀ i, cancelled i = false)
    (hf : ∀ i, ∃ r, fetch i = .ok r ∧ r.codeGenerationStatus = "in-progress") :
    generateCode fetch cancelled = .ok ⟨[], [timeoutMessage], 60⟩ ∧
    pollCount = 60 ∧
    CodeGenState.interact config approach action (.ok resp) fetch cancelled =
      .ok { nextState := NextState.codeGenIteration config approach []
            interactions := []
            history := [codeGenStartedMessage, timeoutMessage] } := by
  have hgen : generateCode fetch cancelled = .ok ⟨[], [timeoutMessage], 60⟩ :=
    generateCodeAux_all_inProgress fetch cancelled hc hf pollCount 0
  refine ⟨hgen, rfl, ?_⟩
  unfold CodeGenState.interact
  rw [hgen]

/-- Witness for C2: a fetch that always reports `in-progress`. -/
theorem codeGen_poll_timeout_witness :
    generateCode (fun _ => .ok inProgressResult) (fun _ => false) =
      .ok ⟨[], [timeoutMessage], 60⟩ ∧
    pollCount = 60 ∧
    CodeGenState.interact sampleConfig "an approach" sampleAction (.ok ⟨"gen-1"⟩)
        (fun _ => .ok inProgressResult) (fun _ => false) =
      .ok { nextState := NextState.codeGenIteration sampleConfig "an approach" []
            interactions := []
            history := [codeGenStartedMessage, timeoutMessage] } :=
  codeGen_poll_timeout sampleConfig "an approach" sampleAction ⟨"gen-1"⟩
    (fun _ => .ok inProgressResult) (fun _ => false) (fun _ => rfl)
    (fun _ => ⟨inProgressResult, rfl, rfl⟩)

/-- A `ready` fetch finalizes the loop at once: the files of the response
are returned and the two materializer interactions are fired. -/
theorem generateCodeAux_ready
    (fetch : Nat → Except TransportError CodegenResult) (cancelled : Nat → Bool)
    (i n : Nat) (r : CodegenResult)
    (hc : cancelled i = false) (hr : fetch i = .ok r)
    (hs : r.codeGenerationStatus = "ready") :
    generateCodeAux fetch cancelled i (n + 1) =
      .ok ⟨r.result.getD [], createChanges (r.result.getD []), 1⟩ := by
  unfold generateCodeAux
  rw [hc, if_neg (by simp), hr]
  simp only
  rw [hs, if_pos rfl]

/-- C6: when the first poll returns `ready` with the single file
`{a.txt, "1"}`, `CodeGenState.interact` fires the fixed confirmation
message followed by a codegen summary listing exactly `["a.txt"]`, and
returns a `CodeGenIteration` next state holding exactly that one file. -/
theorem codeGen_ready_first_poll
    (config : SessionStateConfig) (approach : String) (action : SessionStateAction)
    (resp : GenerateCodeOutput)
    (fetch : Nat → Except TransportError CodegenResult) (cancelled : Nat → Bool)
    (hc : cancelled 0 = false)
    (hr : fetch 0 = .ok ⟨"ready", some [⟨"a.txt", "1"⟩]⟩) :
    CodeGenState.interact config approach action (.ok resp) fetch cancelled =
      .ok { nextState := NextState.codeGenIteration config approach [⟨"a.txt", "1"⟩]
            interactions := []
            history := [codeGenStartedMessage,
              Interaction.message "ai" "Changes to files done. Please review:",
              Interaction.codegen "ai" ["a.txt"]] } := by
  have hgen : generateCode fetch cancelled =
      .ok ⟨[⟨"a.txt", "1"⟩], createChanges [⟨"a.txt", "1"⟩], 1⟩ := by
    show generateCodeAux fetch cancelled 0 (59 + 1) = _
    rw [generateCodeAux_ready fetch cancelled 0 59 ⟨"ready", some [⟨"a.txt", "1"⟩]⟩ hc hr rfl]
    rfl
  unfold CodeGenState.interact
  rw [hgen]
  rfl

/-- Witness for C6: a fetch that is immediately ready with `a.txt`. -/
theorem codeGen_ready_first_poll_witness :
    CodeGenState.interact sampleConfig "an approach" sampleAction (.ok ⟨"gen-1"⟩)
        (fun _ => .ok readyResult) (fun _ => false) =
      .ok { nextState :=
              NextState.codeGenIteration sampleConfig "an approach" [⟨"a.txt", "1"⟩]
            interactions := []
            history := [codeGenStartedMessage,
              Interaction.message "ai" "Changes to files done. Please review:",
              Interaction.codegen "ai" ["a.txt"]] } :=
  codeGen_ready_first_poll sampleConfig "an approach" sampleAction ⟨"gen-1"⟩
    (fun _ => .ok readyResult) (fun _ => false) rfl rfl

/-- After `k` in-progress responses, a terminal (`failed` or
unrecognized) response at attempt `k` stops the loop at fetch `k + 1`
with the single matching diagnostic and no files. -/
theorem generateCodeAux_terminal
    (fetch : Nat → Except TransportError CodegenResult) (cancelled : Nat → Bool)
    (hc : ∀ i, cancelled i = false) :
    ∀ (k i fuel : Nat) (r : CodegenResult), k < fuel →
      (∀ j, j < k → ∃ r2, fetch (i + j) = .ok r2 ∧
        r2.codeGenerationStatus = "in-progress") →
      fetch (i + k) = .ok r →
      r.codeGenerationStatus ≠ "ready" → r.codeGenerationStatus ≠ "in-progress" →
      generateCodeAux fetch cancelled i fuel =
        .ok ⟨[], [if r.codeGenerationStatus = "failed" then failedMessage
                  else unknownStatusMessage r.codeGenerationStatus], k + 1⟩ := by
  intro k
  induction k with
  | zero =>
    intro i fuel r hfuel hpre hr h1 h2
    match fuel, hfuel with
    | n + 1, _ =>
      rw [Nat.add_zero] at hr
      unfold generateCodeAux
      rw [hc i, if_neg (by simp), hr]
      simp only
      rw [if_neg h1, if_neg h2]
      by_cases hfl : r.codeGenerationStatus = "failed"
      · rw [if_pos hfl, if_pos hfl]
      · rw [if_neg hfl, if_neg hfl]
  | succ k ih =>
    intro i fuel r hfuel hpre hr h1 h2
    match fuel, hfuel with
    | n + 1, hfuel =>
      obtain ⟨r0, hr0, hs0⟩ := hpre 0 (Nat.succ_pos k)
      rw [Nat.add_zero] at hr0
      unfold generateCodeAux
      rw [hc i, if_neg (by simp), hr0]
      simp only
      rw [hs0, if_neg (by decide), if_pos rfl]
      rw [ih (i + 1) n r (by omega)
        (fun j hj => by
          obtain ⟨r2, hr2, hs2⟩ := hpre (j + 1) (by omega)
          exact ⟨r2, by rw [show i + 1 + j = i + (j + 1) by omega]; exact hr2, hs2⟩)
        (by rw [show i + 1 + k = i + (k + 1) by omega]; exact hr) h1 h2]

/-- C7: a status fetch reporting `failed` or an unrecognized value stops
the polling engine at once — the fetch count is exactly the attempts used
so far, so no further fetch happens — with exactly one diagnostic message
for the condition and an empty file set. -/
theorem generateCode_terminal_status
    (fetch : Nat → Except TransportError CodegenResult) (cancelled : Nat → Bool)
    (k : Nat) (r : CodegenResult)
    (hc : ∀ i, cancelled i = false) (hk : k < pollCount)
    (hpre : ∀ j, j < k → ∃ r2, fetch j = .ok r2 ∧
      r2.codeGenerationStatus = "in-progress")
    (hr : fetch k = .ok r)
    (h1 : r.codeGenerationStatus ≠ "ready") (h2 : r.codeGenerationStatus ≠ "in-progress") :
    generateCode fetch cancelled =
      .ok ⟨[], [if r.codeGenerationStatus = "failed" then failedMessage
                else unknownStatusMessage r.codeGenerationStatus], k + 1⟩ ∧
    k + 1 ≤ pollCount := by
  refine ⟨?_, hk⟩
  exact generateCodeAux_terminal fetch cancelled hc k 0 pollCount r hk
    (fun j hj => by rw [Nat.zero_add]; exact hpre j hj)
    (by rw [Nat.zero_add]; exact hr) h1 h2

/-- Witness for C7: an immediately `failed` fetch stops after one attempt
with the single failure diagnostic. -/
theorem generateCode_terminal_status_witness :
    generateCode (fun _ => .ok failedResult) (fun _ => false) =
      .ok ⟨[], [failedMessage], 1⟩ ∧ 1 ≤ pollCount := by
  have h := generateCode_terminal_status (fun _ => .ok failedResult) (fun _ => false)
    0 failedResult (fun _ => rfl) (by decide)
    (fun j hj => absurd hj (Nat.not_lt_zero j)) rfl (by decide) (by decide)
  simpa using h

/-- An original file survives the merge filter exactly when no generated
file shares its path. -/
theorem notSuperseded_iff (G : List FileMetadata) (o : FileMetadata) :
    (!(G.any fun g => g.filePath == o.filePath)) = true ↔
      o.filePath ∉ G.map FileMetadata.filePath := by
  have hany : (G.any fun g => g.filePath == o.filePath) = true ↔
      o.filePath ∈ G.map FileMetadata.filePath := by
    rw [List.any_eq_true, List.mem_map]
    constructor
    · rintro ⟨g, hg, hgp⟩
      exact ⟨g, hg, beq_iff_eq.mp hgp⟩
    · rintro ⟨g, hg, hgp⟩
      exact ⟨g, hg, beq_iff_eq.mpr hgp⟩
  constructor
  · intro h hmem
    rw [hany.mpr hmem] at h
    exact absurd h (by decide)
  · intro h
    cases hb : (G.any fun g => g.filePath == o.filePath) with
    | false => rfl
    | true => exact absurd (hany.mp hb) h

/-- C1: for original files `O` and generated files `G`, each with
pairwise-distinct paths, the snapshot `CodeGenIterationState.interact`
builds before re-invoking code generation has pairwise-distinct paths,
covers exactly the paths of `O ∪ G` (each exactly once), resolves every
path present in both lists to the `G` entry, and is ordered as all of `G`
(in order) followed by the non-superseded entries of `O` (in order). -/
theorem mergedFileContents_spec (G O : List FileMetadata)
    (hG : (G.map FileMetadata.filePath).Nodup)
    (hO : (O.map FileMetadata.filePath).Nodup) :
    ((mergedFileContents G O).map FileMetadata.filePath).Nodup ∧
    (∀ p, p ∈ (mergedFileContents G O).map FileMetadata.filePath ↔
        p ∈ G.map FileMetadata.filePath ∨ p ∈ O.map FileMetadata.filePath) ∧
    (∀ p, (p ∈ G.map FileMetadata.filePath ∨ p ∈ O.map FileMetadata.filePath) →
        ((mergedFileContents G O).map FileMetadata.filePath).count p = 1) ∧
    (∀ f, f ∈ mergedFileContents G O → f.filePath ∈ G.map FileMetadata.filePath →
        f ∈ G) ∧
    mergedFileContents G O =
      G ++ O.filter (fun o => !(G.any fun g => g.filePath == o.filePath)) := by
  have hmem : ∀ p, p ∈ (mergedFileContents G O).map FileMetadata.filePath ↔
      p ∈ G.map FileMetadata.filePath ∨ p ∈ O.map FileMetadata.filePath := by
    intro p
    rw [mergedFileContents, List.map_append, List.mem_append]
    constructor
    · rintro (h | h)
      · exact Or.inl h
      · rw [List.mem_map] at h
        obtain ⟨o, ho, rfl⟩ := h
        exact Or.inr (List.mem_map.mpr ⟨o, (List.mem_filter.mp ho).1, rfl⟩)
    · rintro (h | h)
      · exact Or.inl h
      · rw [List.mem_map] at h
        obtain ⟨o, hoO, rfl⟩ := h
        by_cases hpg : o.filePath ∈ G.map FileMetadata.filePath
        · exact Or.inl hpg
        · exact Or.inr (List.mem_map.mpr
            ⟨o, List.mem_filter.mpr ⟨hoO, (notSuperseded_iff G o).mpr hpg⟩, rfl⟩)
  have hnodup : ((mergedFileContents G O).map FileMetadata.filePath).Nodup := by
    rw [mergedFileContents, List.map_append, List.nodup_append]
    refine ⟨hG, ?_, ?_⟩
    · exact hO.sublist ((List.filter_sublist O).map FileMetadata.filePath)
    · intro p hpG hpF
      simp only [List.mem_map, List.mem_filter] at hpF
      obtain ⟨o, ⟨_, hq⟩, rfl⟩ := hpF
      exact ((notSuperseded_iff G o).mp hq) hpG
  refine ⟨hnodup, hmem, ?_, ?_, rfl⟩
  · intro p hp
    exact List.count_eq_one_of_mem hnodup ((hmem p).mpr hp)
  · intro f hf hfp
    rcases List.mem_append.mp hf with h | h
    · exact h
    · obtain ⟨_, hq⟩ := List.mem_filter.mp h
      exact absurd hfp ((notSuperseded_iff G f).mp hq)

/-- Witness for C1 at the sample lists, where the original `b` is
superseded by the generated `b` and the original `c` survives. -/
theorem mergedFileContents_spec_witness :
    (sampleGenerated.map FileMetadata.filePath).Nodup ∧
    (sampleOriginals.map FileMetadata.filePath).Nodup ∧
    (((mergedFileContents sampleGenerated sampleOriginals).map FileMetadata.filePath).Nodup ∧
    (∀ p, p ∈ (mergedFileContents sampleGenerated sampleOriginals).map
          FileMetadata.filePath ↔
        p ∈ sampleGenerated.map FileMetadata.filePath ∨
        p ∈ sampleOriginals.map FileMetadata.filePath) ∧
    (∀ p, (p ∈ sampleGenerated.map FileMetadata.filePath ∨
        p ∈ sampleOriginals.map FileMetadata.filePath) →
        ((mergedFileContents sampleGenerated sampleOriginals).map
          FileMetadata.filePath).count p = 1) ∧
    (∀ f, f ∈ mergedFileContents sampleGenerated sampleOriginals →
        f.filePath ∈ sampleGenerated.map FileMetadata.filePath → f ∈ sampleGenerated) ∧
    mergedFileContents sampleGenerated sampleOriginals =
      sampleGenerated ++ sampleOriginals.filter
        (fun o => !(sampleGenerated.any fun g => g.filePath == o.filePath))) :=
  ⟨by decide, by decide,
    mergedFileContents_spec sampleGenerated sampleOriginals (by decide) (by decide)⟩

end Weaverbird
